import Mathlib

/-!
Verification of the eco repository's client session store
(src/vitereact/src/store/main.tsx) and of the backend registration
contract, as a shallow embedding in Lean 4.

The client store is a zustand store persisted with a partialize
projection.  Its auth actions (`login`, `logout`, `check_auth`,
`clear_error`) are embedded as pure functions on the store state; the
HTTP calls are parameters (success carries the response data record the
code destructures, failure carries the axios error fields the catch
block reads).  JavaScript truthiness on strings and the `||` fallback
chain are modelled explicitly.  Missing record fields of a response
body are `Option.none`, matching `undefined` after destructuring.
-/

namespace Eco

/-- The client `User` record (src/vitereact/src/store/main.tsx, interface User). -/
structure User where
  id : String
  email : String
  name : String
  created_at : String
deriving DecidableEq, Repr

/-- The nested `authentication_status` object of AuthState. -/
structure AuthStatus where
  is_authenticated : Bool
  is_loading : Bool
deriving DecidableEq, Repr

/-- The client `AuthState` slice (interface AuthState). -/
structure AuthState where
  current_user : Option User
  auth_token : Option String
  authentication_status : AuthStatus
  error_message : Option String
deriving DecidableEq, Repr

/-- `Initiative` record of the store (interface Initiative). -/
structure Initiative where
  id : String
  title : String
  description : String
deriving DecidableEq, Repr

/-- `ImpactMetrics` record of the store (interface ImpactMetrics). -/
structure ImpactMetrics where
  carbon_saved : Int
  water_saved : Int
deriving DecidableEq, Repr

/-- Theme of `EnvSettings`. -/
inductive Theme
  | light
  | dark
deriving DecidableEq, Repr

/-- `EnvSettings` record of the store (interface EnvSettings). -/
structure EnvSettings where
  theme : Theme
deriving DecidableEq, Repr

/-- The full store state (type AppState in main.tsx), data fields only. -/
structure AppState where
  auth_state : AuthState
  featured_initiatives : List Initiative
  user_impact : Option ImpactMetrics
  notification_count : Nat
  environment_settings : EnvSettings
deriving DecidableEq, Repr

/-- Initial state of the store as written in `create(persist((set, get) => ({ ... })))`. -/
def initialState : AppState :=
  { auth_state :=
      { current_user := none
        auth_token := none
        authentication_status := { is_authenticated := false, is_loading := true }
        error_message := none }
    featured_initiatives := []
    user_impact := none
    notification_count := 0
    environment_settings := { theme := Theme.light } }

/-- Response body of a successful POST to the login endpoint, as a record of
the fields the client or the backend contract mention.  The code destructures
`const \x7b user, token \x7d = response.data`; a field absent from the body is
`none` (JavaScript `undefined`). -/
structure LoginResponseData where
  user : Option User
  token : Option String
  user_id : Option String
  auth_token : Option String
deriving DecidableEq, Repr

/-- The fields of an axios error that the login catch block reads:
`error.response?.data?.message` and `error.message`.  `none` models an
absent field, `some ""` an empty string (both are falsy in JavaScript). -/
structure AxiosError where
  response_data_message : Option String
  message : Option String
deriving DecidableEq, Repr

/-- Outcome of the HTTP POST performed by `login`. -/
inductive HttpResult
  | success (resp : LoginResponseData)
  | failure (e : AxiosError)
deriving DecidableEq, Repr

/-- JavaScript `a || b` on an optional string `a`: falls through when `a` is
absent (`undefined`) or the empty string (both falsy). -/
def jsOrString : Option String → String → String
  | some s, b => if s = "" then b else s
  | none, b => b

/-- `error.response?.data?.message || error.message || 'Login failed'`
as computed by the login catch block. -/
def loginErrorMessage (e : AxiosError) : String :=
  jsOrString e.response_data_message (jsOrString e.message "Login failed")

/-- Result of running the `login` action: the final store state and the
error re-thrown to the caller (`throw new Error(errorMessage)`), if any. -/
structure LoginOutcome where
  state : AppState
  thrown : Option String
deriving DecidableEq, Repr

/-- The first `set` of `login`: spread the auth state, set `is_loading: true`
and clear `error_message`. -/
def loginStart (s : AppState) : AppState :=
  { s with auth_state :=
      { s.auth_state with
          authentication_status :=
            { s.auth_state.authentication_status with is_loading := true }
          error_message := none } }

/-- The `set` in the login try block: replaces the whole `auth_state` with
`current_user: user, auth_token: token` taken from the destructured response,
`is_authenticated: true, is_loading: false`, `error_message: null`. -/
def loginSuccess (resp : LoginResponseData) (s : AppState) : AppState :=
  { s with auth_state :=
      { current_user := resp.user
        auth_token := resp.token
        authentication_status := { is_authenticated := true, is_loading := false }
        error_message := none } }

/-- The `set` in the login catch block: spread the auth state, set both flags
false and store the computed error message. -/
def loginFailure (e : AxiosError) (s : AppState) : AppState :=
  { s with auth_state :=
      { s.auth_state with
          authentication_status := { is_authenticated := false, is_loading := false }
          error_message := some (loginErrorMessage e) } }

/-- The full `login` action: first `set` (loading), then the try/catch on the
HTTP result; on failure the computed message is re-thrown to the caller. -/
def login (r : HttpResult) (s : AppState) : LoginOutcome :=
  let s1 := loginStart s
  match r with
  | HttpResult.success resp => { state := loginSuccess resp s1, thrown := none }
  | HttpResult.failure e =>
      { state := loginFailure e s1, thrown := some (loginErrorMessage e) }

/-- The `logout` action: unconditionally replaces `auth_state` with the fully
cleared record. -/
def logout (s : AppState) : AppState :=
  { s with auth_state :=
      { current_user := none
        auth_token := none
        authentication_status := { is_authenticated := false, is_loading := false }
        error_message := none } }

/-- JavaScript truthiness test `!token` on `string | null`: true when the
token is `null`/absent or the empty string. -/
def tokenFalsy : Option String → Bool
  | none => true
  | some t => t = ""

/-- Response body of a successful GET on the verify endpoint: the code
destructures `const \x7b user \x7d = response.data`. -/
structure VerifyResponseData where
  user : Option User
deriving DecidableEq, Repr

/-- Outcome of the HTTP GET performed by `check_auth` when it runs. -/
inductive VerifyResult
  | success (resp : VerifyResponseData)
  | failure
deriving DecidableEq, Repr

/-- The Authorization header value the code sends: `Bearer $\x7btoken\x7d`. -/
def bearerHeader (t : String) : String := "Bearer " ++ t

/-- Result of running the `check_auth` action: the final store state, the
list of Authorization headers of the verify calls made (in order), and the
error re-thrown to the caller, if any (the code never re-throws). -/
structure CheckAuthOutcome where
  state : AppState
  verify_calls : List String
  thrown : Option String
deriving DecidableEq, Repr

/-- The `check_auth` action.  Reads the current token; if `!token` it only
clears both flags (spreading the rest) and returns without any network call.
Otherwise it calls the verify endpoint once with the token as bearer; on
success it replaces `auth_state` with the response user, the same token and
`is_authenticated: true`; on failure (catch block) it replaces `auth_state`
with the fully cleared record, `error_message: null` included. -/
def check_auth (v : VerifyResult) (s : AppState) : CheckAuthOutcome :=
  let token := s.auth_state.auth_token
  if tokenFalsy token then
    { state :=
        { s with auth_state :=
            { s.auth_state with
                authentication_status := { is_authenticated := false, is_loading := false } } }
      verify_calls := []
      thrown := none }
  else
    match token, v with
    | some t, VerifyResult.success resp =>
        { state :=
            { s with auth_state :=
                { current_user := resp.user
                  auth_token := some t
                  authentication_status := { is_authenticated := true, is_loading := false }
                  error_message := none } }
          verify_calls := [bearerHeader t]
          thrown := none }
    | some t, VerifyResult.failure =>
        { state :=
            { s with auth_state :=
                { current_user := none
                  auth_token := none
                  authentication_status := { is_authenticated := false, is_loading := false }
                  error_message := none } }
          verify_calls := [bearerHeader t]
          thrown := none }
    | none, _ =>
        -- unreachable: tokenFalsy none = true
        { state := s, verify_calls := [], thrown := none }

/-- The `clear_error` action: spread the auth state, null the error message. -/
def clear_error (s : AppState) : AppState :=
  { s with auth_state := { s.auth_state with error_message := none } }

/-- The value written to durable storage: the `partialize` option of the
persist middleware keeps only the `auth_state` slice, forcing
`is_loading: false` and `error_message: null`. -/
structure PersistedState where
  auth_state : AuthState
deriving DecidableEq, Repr

/-- The `partialize` projection as written in main.tsx. -/
def partialize (s : AppState) : PersistedState :=
  { auth_state :=
      { current_user := s.auth_state.current_user
        auth_token := s.auth_state.auth_token
        authentication_status :=
          { is_authenticated := s.auth_state.authentication_status.is_authenticated
            is_loading := false }
        error_message := none } }

/-- Rehydration on startup: zustand persist merges the persisted value over
the freshly created initial state (default shallow merge), so the whole
`auth_state` slice is taken from storage. -/
def rehydrate (p : PersistedState) : AppState :=
  { initialState with auth_state := p.auth_state }

/-- One observable event of the store lifecycle, for reachability. -/
inductive Event
  | loginEv (r : HttpResult)
  | logoutEv
  | checkAuthEv (v : VerifyResult)
  | clearErrorEv
  | rehydrateEv
deriving DecidableEq, Repr

/-- State transition of one event; `rehydrateEv` persists the current state
through `partialize` and restarts from storage. -/
def step (s : AppState) : Event → AppState
  | Event.loginEv r => (login r s).state
  | Event.logoutEv => logout s
  | Event.checkAuthEv v => (check_auth v s).state
  | Event.clearErrorEv => clear_error s
  | Event.rehydrateEv => rehydrate (partialize s)

/-- The state reached from the initial state by a list of events. -/
def run (es : List Event) : AppState :=
  es.foldl step initialState

/-- The spec's AuthState invariant as stated: `is_authenticated` iff both
`current_user` and `auth_token` are non-null. -/
def authInvariant (s : AppState) : Bool :=
  s.auth_state.authentication_status.is_authenticated =
    (s.auth_state.current_user.isSome && s.auth_state.auth_token.isSome)

/-- The provable direction of the invariant: whenever `is_authenticated`
holds, both `current_user` and `auth_token` are non-null. -/
def authSound (s : AppState) : Bool :=
  !s.auth_state.authentication_status.is_authenticated ||
    (s.auth_state.current_user.isSome && s.auth_state.auth_token.isSome)

/-- A well-formed event: any success response it carries has its `user`
(and, for login, `token`) field present, as the endpoint contracts promise. -/
def wfEvent : Event → Bool
  | Event.loginEv (HttpResult.success resp) => resp.user.isSome && resp.token.isSome
  | Event.checkAuthEv (VerifyResult.success resp) => resp.user.isSome
  | _ => true

/-! ## Backend registration model

The backend `server.ts` itself is not part of the sources; only its test
suite (src/backend/server.test.ts) is.  The registration endpoint and the
Credential Store are therefore modelled from the spec. -/

/-- A persisted user row of the Credential Store (spec section 3: User). -/
structure ServerUser where
  id : Nat
  email : String
  password_hash : String
  is_admin : Bool
deriving DecidableEq, Repr

/-- The Credential Store contents: the user rows, in insertion order. -/
abbrev CredentialStore := List ServerUser

/-- Failure of a register call (spec section 7 taxonomy). -/
inductive RegisterError
  | DuplicateEmail
deriving DecidableEq, Repr

/-- Number of User rows of the store holding the given email. -/
def emailCount (db : CredentialStore) (e : String) : Nat :=
  (db.filter fun u => u.email = e).length

/-- Modelled from the spec: `server.ts` is absent from the sources, so
`AuthService.register`'s interaction with the Credential Store follows the
spec's words — it "checks uniqueness against Credential Store; on collision
fails with `DuplicateEmail`; otherwise ... stores the user", and the store
treats the uniqueness check and the insert as atomic (section 5), so one
register call is one atomic store operation. -/
def register (db : CredentialStore) (e pwHash : String) (uid : Nat) :
    Except RegisterError CredentialStore :=
  if db.any fun u => u.email = e then Except.error RegisterError.DuplicateEmail
  else Except.ok (db ++ [{ id := uid, email := e, password_hash := pwHash, is_admin := false }])

/-- Modelled from the spec: HTTP status mapped 1:1 from the register outcome
(section 6 table: 201 on success, 400 DuplicateEmail). -/
def registerStatus : Except RegisterError CredentialStore → Nat
  | Except.error RegisterError.DuplicateEmail => 400
  | Except.ok _ => 201

/-- One registration attempt (its request body plus the id the store would
assign). -/
structure RegisterAttempt where
  email : String
  pw_hash : String
  uid : Nat
deriving DecidableEq, Repr

/-- Effect of one register call on the store: on `DuplicateEmail` the store
is unchanged, on success the new row is appended. -/
def applyRegister (db : CredentialStore) (a : RegisterAttempt) : CredentialStore :=
  match register db a.email a.pw_hash a.uid with
  | Except.error _ => db
  | Except.ok db2 => db2

/-- The store after a sequence of register calls.  Because the store
serialises the check-and-insert of each call (spec section 5), any
concurrent interleaving of attempts is some such sequence. -/
def runRegisters (db : CredentialStore) (as : List RegisterAttempt) : CredentialStore :=
  as.foldl applyRegister db

/-! ## Concrete inputs used by counterexamples and witnesses -/

/-- A concrete client user. -/
def wfUser : User :=
  { id := "1", email := "a@example.com", name := "A", created_at := "2024-01-01" }

/-- A login response body in the shape the client destructures
(`user` and `token` present). -/
def wfLoginBody : LoginResponseData :=
  { user := some wfUser, token := some "tok1", user_id := none, auth_token := none }

/-- A login response body in the shape the spec's endpoint table and the
backend tests give for the login endpoint: exactly the fields `user_id`
and `auth_token`. -/
def specLoginBody : LoginResponseData :=
  { user := none, token := none, user_id := some "u1", auth_token := some "tok1" }

/-- An axios error carrying no message fields. -/
def emptyAxiosError : AxiosError :=
  { response_data_message := none, message := none }

/-- A successful well-formed login followed by a failed login attempt. -/
def c1Trace : List Event :=
  [Event.loginEv (HttpResult.success wfLoginBody),
   Event.loginEv (HttpResult.failure emptyAxiosError)]

/-- A well-formed trace exercising login, logout, rehydration and a failed
startup verification. -/
def c1WfTrace : List Event :=
  [Event.loginEv (HttpResult.success wfLoginBody),
   Event.logoutEv,
   Event.rehydrateEv,
   Event.checkAuthEv VerifyResult.failure]

/-- A store state holding the empty string as its auth token (non-null, but
falsy for JavaScript). -/
def emptyTokenState : AppState :=
  { initialState with auth_state := { initialState.auth_state with auth_token := some "" } }

/-- A store state holding a concrete non-empty auth token. -/
def tokenState : AppState :=
  { initialState with auth_state := { initialState.auth_state with auth_token := some "tok1" } }

/-- A Credential Store holding exactly one row for a concrete email. -/
def dupStore : CredentialStore :=
  [{ id := 1, email := "duplicate@example.com", password_hash := "password123", is_admin := false }]

/-- A registration attempt reusing the email already stored in `dupStore`. -/
def dupAttempt : RegisterAttempt :=
  { email := "duplicate@example.com", pw_hash := "password123", uid := 2 }

/-- A registration attempt with a fresh email. -/
def otherAttempt : RegisterAttempt :=
  { email := "other@example.com", pw_hash := "pw2", uid := 3 }

/-! ## Helper lemmas -/

/-- The JavaScript `||` fallback never yields the empty string when its
right argument is non-empty. -/
theorem jsOrString_ne_empty (a : Option String) (b : String) (hb : b ≠ "") :
    jsOrString a b ≠ "" := by
  cases a with
  | none => simpa [jsOrString] using hb
  | some s =>
      simp only [jsOrString]
      split
      · exact hb
      · assumption

/-- The message computed by the login catch block is never empty (the chain
ends in the literal fallback). -/
theorem loginErrorMessage_ne_empty (e : AxiosError) : loginErrorMessage e ≠ "" :=
  jsOrString_ne_empty _ _ (jsOrString_ne_empty _ _ (by simp))

/-! ## Claim theorems -/

/-- Claim C7: from every store state, `logout` transitions to the
unauthenticated state with `current_user` and `auth_token` null and both
authentication flags false, unconditionally. -/
theorem logout_unconditional (s : AppState) :
    (logout s).auth_state =
      { current_user := none
        auth_token := none
        authentication_status := { is_authenticated := false, is_loading := false }
        error_message := none } := rfl

/-- Claim C8: the `partialize` projection writes only the auth slice (its
codomain `PersistedState` has no other field), keeps `current_user`,
`auth_token` and `is_authenticated` from the in-memory state, and always
persists `is_loading` as false, whatever its in-memory value. -/
theorem partialize_never_persists_loading (s : AppState) :
    (partialize s).auth_state.authentication_status.is_loading = false ∧
    (partialize s).auth_state.current_user = s.auth_state.current_user ∧
    (partialize s).auth_state.auth_token = s.auth_state.auth_token ∧
    (partialize s).auth_state.authentication_status.is_authenticated =
      s.auth_state.authentication_status.is_authenticated :=
  ⟨rfl, rfl, rfl, rfl⟩

/-- Claim C10: a failed login modifies only the authentication flags and the
error message; `current_user`, `auth_token` and every other slice of the
store keep the values they had before the call. -/
theorem login_failure_frame (e : AxiosError) (s : AppState) :
    (login (HttpResult.failure e) s).state =
      { s with auth_state :=
          { s.auth_state with
              authentication_status := { is_authenticated := false, is_loading := false }
              error_message := some (loginErrorMessage e) } } := rfl

/-- Claim C5: every failed login request is caught; the store ends with both
authentication flags false and a non-null, non-empty error message, and the
computed message is re-thrown to the caller. -/
theorem login_failure_handled (e : AxiosError) (s : AppState) :
    (login (HttpResult.failure e) s).state.auth_state.authentication_status.is_authenticated
        = false ∧
    (login (HttpResult.failure e) s).state.auth_state.authentication_status.is_loading = false ∧
    (login (HttpResult.failure e) s).state.auth_state.error_message =
      some (loginErrorMessage e) ∧
    loginErrorMessage e ≠ "" ∧
    (login (HttpResult.failure e) s).thrown = some (loginErrorMessage e) :=
  ⟨rfl, rfl, rfl, loginErrorMessage_ne_empty e, rfl⟩

/-- Claim C3: when the stored auth token is null, `check_auth` ends with
both authentication flags false and performs no verify call. -/
theorem check_auth_no_token (v : VerifyResult) (s : AppState)
    (h : s.auth_state.auth_token = none) :
    (check_auth v s).state.auth_state.authentication_status =
      { is_authenticated := false, is_loading := false } ∧
    (check_auth v s).verify_calls = [] := by
  simp [check_auth, h, tokenFalsy]

/-- Claim C3 witness: the initial state has no token, and `check_auth`
leaves it unauthenticated without any verify call. -/
theorem check_auth_no_token_witness :
    initialState.auth_state.auth_token = none ∧
    ((check_auth VerifyResult.failure initialState).state.auth_state.authentication_status =
        { is_authenticated := false, is_loading := false } ∧
      (check_auth VerifyResult.failure initialState).verify_calls = []) :=
  ⟨rfl, check_auth_no_token VerifyResult.failure initialState rfl⟩

/-- Claim C2: evaluating `login` on a successful response whose body is
exactly the spec's `\x7buser_id, auth_token\x7d` shape shows the store ends with
`is_authenticated = true` but `current_user` and `auth_token` null — the
code destructures the fields `user` and `token`, which that body does not
carry, instead of `user_id` and `auth_token`. -/
theorem login_success_drops_spec_body :
    specLoginBody.user_id = some "u1" ∧ specLoginBody.auth_token = some "tok1" ∧
    (login (HttpResult.success specLoginBody) initialState).state.auth_state =
      { current_user := none
        auth_token := none
        authentication_status := { is_authenticated := true, is_loading := false }
        error_message := none } :=
  ⟨rfl, rfl, rfl⟩

/-- Claim C1 counterexample: after a successful login (with a well-formed
response carrying `user` and `token`) followed by a failed login attempt,
the store holds `is_authenticated = false` while `current_user` and
`auth_token` are still non-null — a failed login clears only the flags —
so the biconditional invariant fails on a reachable state. -/
theorem authInvariant_fails_on_reachable :
    c1Trace.all wfEvent = true ∧
    authInvariant (run c1Trace) = false ∧
    (run c1Trace).auth_state.current_user = some wfUser ∧
    (run c1Trace).auth_state.auth_token = some "tok1" ∧
    (run c1Trace).auth_state.authentication_status.is_authenticated = false :=
  ⟨rfl, rfl, rfl, rfl, rfl⟩

/-- One step preserves the sound direction of the invariant, provided any
success response the event carries has its user (and token) field present. -/
theorem authSound_step (s : AppState) (e : Event) (hw : wfEvent e = true)
    (hs : authSound s = true) : authSound (step s e) = true := by
  cases e with
  | loginEv r =>
      cases r with
      | success resp =>
          simp only [wfEvent, Bool.and_eq_true] at hw
          simp [step, login, loginSuccess, loginStart, authSound, hw.1, hw.2]
      | failure err => simp [step, login, loginFailure, loginStart, authSound]
  | logoutEv => simp [step, logout, authSound]
  | checkAuthEv v =>
      cases htok : s.auth_state.auth_token with
      | none => simp [step, check_auth, htok, tokenFalsy, authSound]
      | some t =>
          by_cases ht : t = ""
          · simp [step, check_auth, htok, tokenFalsy, ht, authSound]
          · cases v with
            | success resp =>
                simp only [wfEvent] at hw
                simp [step, check_auth, htok, tokenFalsy, ht, authSound, hw]
            | failure => simp [step, check_auth, htok, tokenFalsy, ht, authSound]
  | clearErrorEv => simpa [step, clear_error, authSound] using hs
  | rehydrateEv => simpa [step, rehydrate, partialize, authSound] using hs

/-- The sound direction of the invariant is preserved along any well-formed
event list, from any state satisfying it. -/
theorem foldl_authSound (l : List Event) :
    ∀ s : AppState, authSound s = true → (∀ e ∈ l, wfEvent e = true) →
      authSound (l.foldl step s) = true := by
  induction l with
  | nil => intro s hs _; simpa using hs
  | cons e l ih =>
      intro s hs hl
      simp only [List.foldl_cons]
      exact ih (step s e) (authSound_step s e (hl e (by simp)) hs)
        (fun x hx => hl x (by simp [hx]))

/-- Claim C1 amended: for every state reachable from the initial state by
login, logout, check_auth, clear_error and rehydration events whose success
responses are well-formed (login responses carry non-null `user` and
`token`, verify responses a non-null `user`), `is_authenticated = true`
implies that `current_user` and `auth_token` are both non-null.  Only this
direction of the spec's biconditional holds. -/
theorem run_authSound (es : List Event) (hw : ∀ e ∈ es, wfEvent e = true) :
    authSound (run es) = true :=
  foldl_authSound es initialState (by decide) hw

/-- Claim C1 witness: the sound direction holds at the end of a concrete
well-formed trace. -/
theorem run_authSound_witness :
    c1WfTrace.all wfEvent = true ∧ authSound (run c1WfTrace) = true :=
  ⟨rfl, run_authSound c1WfTrace (by decide)⟩

/-- Claim C4 counterexample: the empty string is a non-null token, yet
`check_auth` performs no verify call at all (JavaScript `!token` treats ""
as absent) and does not discard the token either. -/
theorem check_auth_empty_token_no_call :
    emptyTokenState.auth_state.auth_token = some "" ∧
    (check_auth VerifyResult.failure emptyTokenState).verify_calls = [] ∧
    (check_auth VerifyResult.failure emptyTokenState).state.auth_state.auth_token = some "" :=
  ⟨rfl, rfl, rfl⟩

/-- Claim C4 amended: for every state whose token is non-null and non-empty,
`check_auth` calls the verify endpoint exactly once with that token as
bearer; on success the store ends authenticated with `current_user` set to
the user field of the response and the token unchanged; on failure the store
ends unauthenticated with the stale token discarded, still after exactly one
call (no retry). -/
theorem check_auth_with_token (v : VerifyResult) (s : AppState) (t : String)
    (htok : s.auth_state.auth_token = some t) (ht : t ≠ "") :
    (check_auth v s).verify_calls = [bearerHeader t] ∧
    (match v with
     | VerifyResult.success resp =>
         (check_auth v s).state.auth_state =
           { current_user := resp.user
             auth_token := some t
             authentication_status := { is_authenticated := true, is_loading := false }
             error_message := none }
     | VerifyResult.failure =>
         (check_auth v s).state.auth_state =
           { current_user := none
             auth_token := none
             authentication_status := { is_authenticated := false, is_loading := false }
             error_message := none }) := by
  cases v <;> simp [check_auth, htok, tokenFalsy, ht]

/-- Claim C4 witness: a concrete state with a non-empty token makes exactly
one verify call carrying that token as bearer. -/
theorem check_auth_with_token_witness :
    tokenState.auth_state.auth_token = some "tok1" ∧
    (check_auth VerifyResult.failure tokenState).verify_calls = [bearerHeader "tok1"] :=
  ⟨rfl, (check_auth_with_token VerifyResult.failure tokenState "tok1" rfl (by decide)).1⟩

/-- Claim C6 counterexample: when the verify call fails during `check_auth`,
the catch block stores `error_message: null` — no human-readable error
message is kept, contrary to the claim. -/
theorem check_auth_failure_clears_error :
    tokenState.auth_state.auth_token = some "tok1" ∧
    (check_auth VerifyResult.failure tokenState).state.auth_state.error_message = none :=
  ⟨rfl, rfl⟩

/-- Claim C6 amended: a verify failure during `check_auth` is caught (never
re-thrown); the store resets both authentication flags to false and clears
`current_user`, `auth_token` and `error_message` to null — it does not store
an error message. -/
theorem check_auth_failure_caught (s : AppState) (t : String)
    (htok : s.auth_state.auth_token = some t) (ht : t ≠ "") :
    (check_auth VerifyResult.failure s).thrown = none ∧
    (check_auth VerifyResult.failure s).state.auth_state =
      { current_user := none
        auth_token := none
        authentication_status := { is_authenticated := false, is_loading := false }
        error_message := none } := by
  simp [check_auth, htok, tokenFalsy, ht]

/-- Claim C6 witness: the amended behaviour at a concrete state. -/
theorem check_auth_failure_caught_witness :
    tokenState.auth_state.auth_token = some "tok1" ∧
    ((check_auth VerifyResult.failure tokenState).thrown = none ∧
      (check_auth VerifyResult.failure tokenState).state.auth_state =
        { current_user := none
          auth_token := none
          authentication_status := { is_authenticated := false, is_loading := false }
          error_message := none }) :=
  ⟨rfl, check_auth_failure_caught tokenState "tok1" rfl (by decide)⟩

/-- A positive email count is exactly a successful `any` uniqueness probe. -/
theorem emailCount_pos (db : CredentialStore) (e : String) :
    0 < emailCount db e ↔ (db.any fun u => u.email = e) = true := by
  constructor
  · intro h
    obtain ⟨u, hu⟩ := List.length_pos_iff_exists_mem.mp h
    rw [List.mem_filter] at hu
    exact List.any_eq_true.mpr ⟨u, hu.1, hu.2⟩
  · intro h
    obtain ⟨u, hu, hp⟩ := List.any_eq_true.mp h
    exact List.length_pos_iff_exists_mem.mpr ⟨u, List.mem_filter.mpr ⟨hu, hp⟩⟩

/-- A register call for an email already present fails with DuplicateEmail. -/
theorem register_duplicate (db : CredentialStore) (e pwHash : String) (uid : Nat)
    (h : 0 < emailCount db e) :
    register db e pwHash uid = Except.error RegisterError.DuplicateEmail := by
  simp [register, (emailCount_pos db e).mp h]

/-- Any single register attempt leaves the count of an already-present email
unchanged: a colliding attempt is rejected, a distinct one adds a row with a
different email. -/
theorem emailCount_applyRegister (db : CredentialStore) (a : RegisterAttempt) (e : String)
    (h : 0 < emailCount db e) :
    emailCount (applyRegister db a) e = emailCount db e := by
  by_cases hdup : (db.any fun u => u.email = a.email) = true
  · simp [applyRegister, register, hdup]
  · have hne : a.email ≠ e := by
      intro heq
      exact hdup (heq ▸ (emailCount_pos db e).mp h)
    simp [applyRegister, register, hdup, emailCount, List.filter_append, hne]

/-- Any sequence of register attempts leaves the count of an already-present
email unchanged. -/
theorem emailCount_runRegisters (as : List RegisterAttempt) :
    ∀ (db : CredentialStore) (e : String), 0 < emailCount db e →
      emailCount (runRegisters db as) e = emailCount db e := by
  induction as with
  | nil => intro db e _; rfl
  | cons a as ih =>
      intro db e h
      have hpres := emailCount_applyRegister db a e h
      have h2 : 0 < emailCount (applyRegister db a) e := by rw [hpres]; exact h
      calc emailCount (runRegisters db (a :: as)) e
          = emailCount (runRegisters (applyRegister db a) as) e := rfl
        _ = emailCount (applyRegister db a) e := ih (applyRegister db a) e h2
        _ = emailCount db e := hpres

/-- Claim C9: when the Credential Store already holds exactly one row for an
email, any further register call with that email fails with DuplicateEmail
(HTTP 400), and after any sequence of further register attempts — which, the
store serialising its check-and-insert, covers any concurrent interleaving —
exactly one row with that email exists. -/
theorem register_duplicate_unique (db : CredentialStore) (e : String)
    (h : emailCount db e = 1) :
    (∀ pwHash uid,
        register db e pwHash uid = Except.error RegisterError.DuplicateEmail ∧
        registerStatus (register db e pwHash uid) = 400) ∧
    (∀ as, emailCount (runRegisters db as) e = 1) := by
  have h1 : 0 < emailCount db e := by omega
  constructor
  · intro pwHash uid
    have hreg := register_duplicate db e pwHash uid h1
    exact ⟨hreg, by rw [hreg]; rfl⟩
  · intro as
    rw [emailCount_runRegisters as db e h1, h]

/-- Claim C9 witness: a store holding one row for a concrete email rejects a
second registration of it with DuplicateEmail, and a concrete sequence of
further attempts (one colliding, one fresh) leaves exactly one such row. -/
theorem register_duplicate_unique_witness :
    emailCount dupStore "duplicate@example.com" = 1 ∧
    register dupStore "duplicate@example.com" "password123" 2 =
      Except.error RegisterError.DuplicateEmail ∧
    emailCount (runRegisters dupStore [dupAttempt, otherAttempt]) "duplicate@example.com" = 1 :=
  ⟨by decide,
   ((register_duplicate_unique dupStore "duplicate@example.com" (by decide)).1
      "password123" 2).1,
   (register_duplicate_unique dupStore "duplicate@example.com" (by decide)).2
      [dupAttempt, otherAttempt]⟩

end Eco
